import Mathlib

/-!
Trust-store resource: lifecycle operations of `internal/provider/trust_store_resource.go`.

A shallow embedding of the four lifecycle methods of `trustStoreResource`
(`Create`, `Read`, `Update`, `Delete`).  Each method is a function from its
inputs to a `Run`: the HTTP requests handed to `client.Do`, the response object
the method was writing to, and the way the call ended (normal return, Go
run-time panic on a nil pointer, or `log.Fatal`).

Everything the Go standard library and the Terraform plugin framework do on
behalf of the methods is an input: the `Runtime` record holds `url.Parse`
(inside `http.NewRequest`), `http.Client.Do`, the JSON scanner of
`encoding/json` and the framework's `State.Set`; the request objects hold what
`Plan.Get` and `State.Get` yield.  What `json.Unmarshal` does with a scanned
document (field matching, `null`, type mismatches) is modelled concretely.
-/

namespace TrustStore

/-! ## Framework values -/

/-- Terraform framework `types.String`: a string attribute is null, unknown or known.
The Go zero value is the null string. -/
inductive TString where
  | null : TString
  | unknown : TString
  | value (s : String) : TString
  deriving DecidableEq, Repr

/-- Framework `types.StringValue`: a known string. -/
def StringValue (s : String) : TString := TString.value s

/-- Framework `(types.String).ValueString`: the known value, or the empty string for
null and unknown. -/
def TString.ValueString : TString → String
  | TString.value s => s
  | _ => ""

/-- Severity of a framework diagnostic. -/
inductive Severity where
  | Error : Severity
  | Warning : Severity
  deriving DecidableEq, Repr

/-- Framework diagnostic.  `path` is present on attribute diagnostics only; the
diagnostics `AddError` builds carry none. -/
structure Diagnostic where
  severity : Severity
  summary : String
  detail : String
  path : Option String
  deriving DecidableEq, Repr

/-- Framework `diag.Diagnostics`. -/
abbrev Diagnostics := List Diagnostic

/-- Framework `Diagnostics.HasError`: some diagnostic has error severity. -/
def HasError (diags : Diagnostics) : Bool :=
  diags.any fun d => decide (d.severity = Severity.Error)

/-- Framework `Diagnostics.Append`: adds each diagnostic that is not already contained. -/
def Append (diags : Diagnostics) (new : Diagnostics) : Diagnostics :=
  new.foldl (fun acc d => if d ∈ acc then acc else acc ++ [d]) diags

/-- Framework `diag.NewErrorDiagnostic`. -/
def NewErrorDiagnostic (summary detail : String) : Diagnostic :=
  { severity := Severity.Error, summary := summary, detail := detail, path := none }

/-- Framework `Diagnostics.AddError`: appends a new error diagnostic. -/
def AddError (diags : Diagnostics) (summary detail : String) : Diagnostics :=
  Append diags [NewErrorDiagnostic summary detail]

/-! ## Data model of the resource -/

/-- Modelled from the spec: `tools.TrustStoreClient`, declared in the `tools` package
of this repository; the endpoint URL and the bearer credential, the two fields
`provider.go` fills in (`Token`, `Url`). -/
structure TrustStoreClient where
  Token : String
  Url : String
  deriving DecidableEq, Repr

/-- The resource: `client` is a Go pointer, `none` is nil. -/
structure trustStoreResource where
  client : Option TrustStoreClient
  deriving DecidableEq, Repr

/-- Go struct `trustStoreModel`: the nine attributes of the schema, in the order of
the source. -/
structure trustStoreModel where
  ID : TString
  SerialNumber : TString
  Certificate : TString
  Status : TString
  Issuer : TString
  Signature : TString
  UploadedOn : TString
  UploadedAt : TString
  ExpiresOn : TString
  deriving DecidableEq, Repr

/-- The anonymous struct type of the field `Result` of `trustStoreJsonModel`. -/
structure ResultFields where
  ID : String
  SerialNumber : String
  Certificate : String
  Status : String
  Issuer : String
  Signature : String
  UploadedOn : String
  UploadedAt : String
  ExpiresOn : String
  deriving DecidableEq, Repr

/-- Go struct `trustStoreJsonModel`. -/
structure trustStoreJsonModel where
  Result : ResultFields
  deriving DecidableEq, Repr

/-- The Go zero value of `trustStoreJsonModel`, what `&trustStoreJsonModel{}` points to. -/
def zeroJsonModel : trustStoreJsonModel :=
  { Result := { ID := "", SerialNumber := "", Certificate := "", Status := "", Issuer := "",
                Signature := "", UploadedOn := "", UploadedAt := "", ExpiresOn := "" } }

/-! ## JSON documents and `json.Unmarshal` -/

/-- A JSON document, as the scanner of `encoding/json` reads it: objects keep their
members in textual order, duplicate keys included. -/
inductive JSON where
  | null : JSON
  | bool (b : Bool) : JSON
  | number (literal : String) : JSON
  | string (s : String) : JSON
  | array (items : List JSON) : JSON
  | object (members : List (String × JSON)) : JSON

/-- Folding of one rune as `encoding/json` does when it compares an object key with a
field name: ASCII letters fold to upper case, and the two non-ASCII runes whose
simple case folding is an ASCII letter, U+017F (long s) and U+212A (Kelvin sign),
fold to `S` and `K`.  No other rune folds to an ASCII character. -/
def foldRune (c : Char) : Char :=
  if 97 ≤ c.toNat ∧ c.toNat ≤ 122 then Char.ofNat (c.toNat - 32)
  else if c.toNat = 0x17F then 'S'
  else if c.toNat = 0x212A then 'K'
  else c

/-- Go `foldName` of `encoding/json`, on the runes of a key. -/
def foldName (s : String) : List Char := s.toList.map foldRune

/-- An object key selects the struct field of JSON name `name`: the exact name, or a
case-insensitive match.  The field names of this program are pairwise different
after folding, so a key selects at most one field. -/
def keyMatches (key name : String) : Bool := decide (foldName key = foldName name)

/-- Decoding of a JSON value into a Go `string` field: a JSON string is stored, `null`
leaves the field as it is, any other value is an `UnmarshalTypeError` that leaves
the field as it is and lets decoding go on. -/
def decodeString (old : String) : JSON → String
  | JSON.string s => s
  | _ => old

/-- One member of the object decoded into the field `Result`: the key is looked up among
the nine `json` tags. -/
def decodeResultMember (r : ResultFields) (key : String) (v : JSON) : ResultFields :=
  if keyMatches key "id" then { r with ID := decodeString r.ID v }
  else if keyMatches key "serial_number" then { r with SerialNumber := decodeString r.SerialNumber v }
  else if keyMatches key "certificate" then { r with Certificate := decodeString r.Certificate v }
  else if keyMatches key "status" then { r with Status := decodeString r.Status v }
  else if keyMatches key "issuer" then { r with Issuer := decodeString r.Issuer v }
  else if keyMatches key "signature" then { r with Signature := decodeString r.Signature v }
  else if keyMatches key "uploaded_on" then { r with UploadedOn := decodeString r.UploadedOn v }
  else if keyMatches key "uploaded_at" then { r with UploadedAt := decodeString r.UploadedAt v }
  else if keyMatches key "expires_on" then { r with ExpiresOn := decodeString r.ExpiresOn v }
  else r

/-- Decoding of a JSON value into the struct field `Result`: an object is decoded member
by member, `null` and every value of another kind leave the struct as it is. -/
def decodeResult (r : ResultFields) : JSON → ResultFields
  | JSON.object members => members.foldl (fun acc kv => decodeResultMember acc kv.1 kv.2) r
  | _ => r

/-- Decoding of a JSON value into a `trustStoreJsonModel` struct.  The only field,
`Result`, has no `json` tag, so its JSON name is `Result`. -/
def decodeJsonModel (m : trustStoreJsonModel) : JSON → trustStoreJsonModel
  | JSON.object members =>
      members.foldl
        (fun acc kv => if keyMatches kv.1 "Result" then { Result := decodeResult acc.Result kv.2 } else acc) m
  | _ => m

/-- Go `json.Unmarshal(data, &jsonModel)` where `jsonModel` is itself a pointer
(`none` is nil); the result is the pointer after the call, the error is discarded by
the caller.  `scan` is the scanner of `encoding/json`: a body that is not valid
JSON is rejected before anything is stored.  The JSON literal `null` decoded into a
pointer sets the pointer to nil. -/
def Unmarshal (scan : String → Option JSON) (data : String)
    (jsonModel : Option trustStoreJsonModel) : Option trustStoreJsonModel :=
  match scan data with
  | none => jsonModel
  | some JSON.null => none
  | some doc => some (decodeJsonModel (jsonModel.getD zeroJsonModel) doc)

/-- Go `json.Marshal` of a `map[string]string`, represented by the JSON document the
bytes encode: an object of string members. -/
def Marshal (values : List (String × String)) : JSON :=
  JSON.object (values.map fun kv => (kv.1, JSON.string kv.2))

/-! ## HTTP -/

/-- An `http.Request` as built by `http.NewRequest` and `Header.Add`: the method, the
raw target string, the body (`none` is a nil body) and the headers added. -/
structure Request where
  Method : String
  URL : String
  Body : Option JSON
  Header : List (String × String)

/-- An `http.Response`, as far as the methods look at it: the status code and what
`io.ReadAll(response.Body)` yields, the body text or a read error. -/
structure Response where
  StatusCode : Int
  Body : Except String String

/-- What the libraries do for the methods.  `urlParse` tells whether `url.Parse`
accepts a raw target; `Do` is `http.Client.Do`, returning the response pointer
(`none` is nil) and the error (`none` is nil); `scan` is the JSON scanner;
`StateSet` gives the diagnostics of `resp.State.Set` for a model value. -/
structure Runtime where
  urlParse : String → Bool
  Do : Request → Option Response × Option String
  scan : String → Option JSON
  StateSet : trustStoreModel → Diagnostics

/-- Go `http.NewRequest` with one of the constant methods `POST` and `DELETE`: the
request, or nil when the target does not parse. -/
def NewRequest (rt : Runtime) (method url : String) (body : Option JSON) : Option Request :=
  if rt.urlParse url then some { Method := method, URL := url, Body := body, Header := [] }
  else none

/-- Go `request.Header.Add`. -/
def Request.HeaderAdd (request : Request) (key value : String) : Request :=
  { request with Header := request.Header ++ [(key, value)] }

/-! ## Runs of a lifecycle method -/

/-- How a call ended: it returned, it panicked on a nil pointer dereference, or it
ended the process through `log.Fatal` with the given error text. -/
inductive Ending where
  | returned : Ending
  | nilDereference : Ending
  | fatal (err : String) : Ending
  deriving DecidableEq, Repr

/-- The observable course of one call: the requests passed to `client.Do`, in order,
the response object as the call left it, and how the call ended. -/
structure Run (ρ : Type) where
  requests : List Request
  resp : ρ
  ending : Ending

/-- Framework `resource.CreateRequest`: `Plan` is what `req.Plan.Get` yields, the decoded
plan and the diagnostics of the read. -/
structure CreateRequest where
  Plan : trustStoreModel × Diagnostics

/-- Framework `resource.CreateResponse`: `State` is `none` while no state record is set. -/
structure CreateResponse where
  State : Option trustStoreModel
  Diagnostics : Diagnostics
  deriving DecidableEq, Repr

/-- Go method `trustStoreResource.Create`. -/
def Create (rt : Runtime) (r : trustStoreResource) (req : CreateRequest)
    (resp : CreateResponse) : Run CreateResponse :=
  let plan := req.Plan.1
  let jsonModel : Option trustStoreJsonModel := some zeroJsonModel
  let diags := req.Plan.2
  let resp := { resp with Diagnostics := Append resp.Diagnostics diags }
  if HasError resp.Diagnostics then
    { requests := [], resp := resp, ending := Ending.returned }
  else
    let values := [("certificate", plan.Certificate.ValueString)]
    let jsonData := Marshal values
    match r.client with
    | none => { requests := [], resp := resp, ending := Ending.nilDereference }
    | some client =>
      match NewRequest rt "POST" client.Url (some jsonData) with
      | none =>
        -- request.Header.Add on the nil request
        { requests := [], resp := resp, ending := Ending.nilDereference }
      | some request =>
        let request := request.HeaderAdd "Authorization" ("Bearer " ++ client.Token)
        let response := (rt.Do request).1
        let err := (rt.Do request).2
        let resp :=
          match err with
          | some e =>
            { resp with Diagnostics := AddError resp.Diagnostics "Cannot send post request" e }
          | none => resp
        match response with
        | none =>
          -- defer response.Body.Close() evaluates response.Body on the nil response
          { requests := [request], resp := resp, ending := Ending.nilDereference }
        | some response =>
          match response.Body with
          | Except.error e =>
            -- log.Fatal(err)
            { requests := [request], resp := resp, ending := Ending.fatal e }
          | Except.ok bodyBytes =>
            let bodyString := bodyBytes
            let resp :=
              if response.StatusCode ≠ 201 then
                { resp with Diagnostics := AddError resp.Diagnostics "Not created" bodyString }
              else resp
            if HasError resp.Diagnostics then
              { requests := [request], resp := resp, ending := Ending.returned }
            else
              match Unmarshal rt.scan bodyBytes jsonModel with
              | none =>
                -- jsonModel.Result.ID on the nil pointer
                { requests := [request], resp := resp, ending := Ending.nilDereference }
              | some jsonModel =>
                let plan := { plan with
                  ID := StringValue jsonModel.Result.ID
                  SerialNumber := StringValue jsonModel.Result.SerialNumber
                  Status := StringValue jsonModel.Result.Status
                  Issuer := StringValue jsonModel.Result.Issuer
                  Signature := StringValue jsonModel.Result.Signature
                  UploadedOn := StringValue jsonModel.Result.UploadedOn
                  UploadedAt := StringValue jsonModel.Result.UploadedAt
                  ExpiresOn := StringValue jsonModel.Result.ExpiresOn }
                let diags := rt.StateSet plan
                let resp :=
                  if HasError diags then resp else { resp with State := some plan }
                let resp := { resp with Diagnostics := Append resp.Diagnostics diags }
                { requests := [request], resp := resp, ending := Ending.returned }

/-- Framework `resource.ReadRequest`: the prior state. -/
structure ReadRequest where
  State : trustStoreModel
  deriving DecidableEq, Repr

/-- Framework `resource.ReadResponse`: the framework fills `State` with the prior state
before the call. -/
structure ReadResponse where
  State : Option trustStoreModel
  Diagnostics : Diagnostics
  deriving DecidableEq, Repr

/-- Go method `trustStoreResource.Read`: the body is empty.  The comment above it in the
source speaks of refreshing the state with the latest data; the code fetches nothing. -/
def Read (_r : trustStoreResource) (_req : ReadRequest) (resp : ReadResponse) :
    Run ReadResponse :=
  { requests := [], resp := resp, ending := Ending.returned }

/-- Framework `resource.UpdateRequest`: the plan and the prior state. -/
structure UpdateRequest where
  Plan : trustStoreModel
  State : trustStoreModel
  deriving DecidableEq, Repr

/-- Framework `resource.UpdateResponse`: the framework fills `State` with the prior state
before the call. -/
structure UpdateResponse where
  State : Option trustStoreModel
  Diagnostics : Diagnostics
  deriving DecidableEq, Repr

/-- Go method `trustStoreResource.Update`: the body is empty.  The comment above it in the
source speaks of updating the resource and setting the updated state; the code does
neither. -/
def Update (_r : trustStoreResource) (_req : UpdateRequest) (resp : UpdateResponse) :
    Run UpdateResponse :=
  { requests := [], resp := resp, ending := Ending.returned }

/-- Framework `resource.DeleteRequest`: `State` is what `req.State.Get` yields, the decoded
prior state and the diagnostics of the read. -/
structure DeleteRequest where
  State : trustStoreModel × Diagnostics

/-- Framework `resource.DeleteResponse`: the framework fills `State` with the prior state
before the call and removes it afterwards when the diagnostics hold no error. -/
structure DeleteResponse where
  State : Option trustStoreModel
  Diagnostics : Diagnostics
  deriving DecidableEq, Repr

/-- Go method `trustStoreResource.Delete`. -/
def Delete (rt : Runtime) (r : trustStoreResource) (req : DeleteRequest)
    (resp : DeleteResponse) : Run DeleteResponse :=
  let state := req.State.1
  let diags := req.State.2
  let resp := { resp with Diagnostics := Append resp.Diagnostics diags }
  match r.client with
  | none => { requests := [], resp := resp, ending := Ending.nilDereference }
  | some client =>
    match NewRequest rt "DELETE" (client.Url ++ "/" ++ state.ID.ValueString) none with
    | none =>
      -- request.Header.Add on the nil request
      { requests := [], resp := resp, ending := Ending.nilDereference }
    | some request =>
      let request := request.HeaderAdd "Authorization" ("Bearer " ++ client.Token)
      let response := (rt.Do request).1
      let err := (rt.Do request).2
      let resp :=
        match err with
        | some e =>
          { resp with Diagnostics := AddError resp.Diagnostics "Cannot send delete request" e }
        | none => resp
      match response with
      | none =>
        -- defer response.Body.Close() evaluates response.Body on the nil response
        { requests := [request], resp := resp, ending := Ending.nilDereference }
      | some response =>
        match response.Body with
        | Except.error e =>
          -- log.Fatal(err)
          { requests := [request], resp := resp, ending := Ending.fatal e }
        | Except.ok bodyBytes =>
          let bodyString := bodyBytes
          let resp :=
            if response.StatusCode ≠ 200 then
              { resp with Diagnostics := AddError resp.Diagnostics "Not deleted" bodyString }
            else resp
          { requests := [request], resp := resp, ending := Ending.returned }

/-! ## The requests and documents the specification names -/

/-- The request the specification gives for Create: `POST {url}` with the body
`{"certificate": c}` and the bearer header. -/
def createRequestOf (client : TrustStoreClient) (c : String) : Request :=
  { Method := "POST", URL := client.Url,
    Body := some (JSON.object [("certificate", JSON.string c)]),
    Header := [("Authorization", "Bearer " ++ client.Token)] }

/-- The request the specification gives for Delete: `DELETE {url}/{id}` with no body and
the bearer header. -/
def deleteRequestOf (client : TrustStoreClient) (id : String) : Request :=
  { Method := "DELETE", URL := client.Url ++ "/" ++ id, Body := none,
    Header := [("Authorization", "Bearer " ++ client.Token)] }

/-- The response document the specification gives for a created record R:
`{"result": R}` with the nine string members. -/
def resultDocument (R : ResultFields) : JSON :=
  JSON.object [("result", JSON.object [
    ("id", JSON.string R.ID),
    ("serial_number", JSON.string R.SerialNumber),
    ("certificate", JSON.string R.Certificate),
    ("status", JSON.string R.Status),
    ("issuer", JSON.string R.Issuer),
    ("signature", JSON.string R.Signature),
    ("uploaded_on", JSON.string R.UploadedOn),
    ("uploaded_at", JSON.string R.UploadedAt),
    ("expires_on", JSON.string R.ExpiresOn)])]

/-- The state record that is exactly R: every attribute is the known string of R. -/
def recordOf (R : ResultFields) : trustStoreModel :=
  { ID := StringValue R.ID, SerialNumber := StringValue R.SerialNumber,
    Certificate := StringValue R.Certificate, Status := StringValue R.Status,
    Issuer := StringValue R.Issuer, Signature := StringValue R.Signature,
    UploadedOn := StringValue R.UploadedOn, UploadedAt := StringValue R.UploadedAt,
    ExpiresOn := StringValue R.ExpiresOn }

/-- The state record Create builds from a plan and a record R: the certificate of the
plan, the eight other attributes from R. -/
def createdRecord (plan : trustStoreModel) (R : ResultFields) : trustStoreModel :=
  { ID := StringValue R.ID, SerialNumber := StringValue R.SerialNumber,
    Certificate := plan.Certificate, Status := StringValue R.Status,
    Issuer := StringValue R.Issuer, Signature := StringValue R.Signature,
    UploadedOn := StringValue R.UploadedOn, UploadedAt := StringValue R.UploadedAt,
    ExpiresOn := StringValue R.ExpiresOn }

/-! ## A simulated remote service, for concrete runs -/

/-- A record as a remote service could return it. -/
def sampleRecord : ResultFields :=
  { ID := "abc123", SerialNumber := "SN1", Certificate := "CERTX", Status := "active",
    Issuer := "CA1", Signature := "SIG1", UploadedOn := "2024-01-01",
    UploadedAt := "12:00:00", ExpiresOn := "2025-01-01" }

/-- The body text of a 201 answer carrying `sampleRecord`. -/
def sampleBody : String :=
  "\x7b\"result\":\x7b\"id\":\"abc123\",\"serial_number\":\"SN1\",\"certificate\":\"CERTX\",\"status\":\"active\",\"issuer\":\"CA1\",\"signature\":\"SIG1\",\"uploaded_on\":\"2024-01-01\",\"uploaded_at\":\"12:00:00\",\"expires_on\":\"2025-01-01\"\x7d\x7d"

/-- The JSON scanner on the body texts of the simulated service: the literal `null`, the
sample body, and texts that are not JSON. -/
def sampleScan (data : String) : Option JSON :=
  if data = "null" then some JSON.null
  else if data = sampleBody then some (resultDocument sampleRecord)
  else none

/-- A remote service that answers every request with the given status and body read, on
a runtime that accepts every target and stores every state record. -/
def answering (status : Int) (body : Except String String) : Runtime :=
  { urlParse := fun _ => true
    Do := fun _ => (some { StatusCode := status, Body := body }, none)
    scan := sampleScan
    StateSet := fun _ => [] }

/-- A remote service that cannot be reached: every exchange fails with the given error
and no response. -/
def unreachable (err : String) : Runtime :=
  { urlParse := fun _ => true
    Do := fun _ => (none, some err)
    scan := sampleScan
    StateSet := fun _ => [] }

/-- A configured client. -/
def sampleClient : TrustStoreClient :=
  { Token := "s3cr3t", Url := "https://truststore.example/api/certificates" }

/-- The resource configured with `sampleClient`. -/
def sampleResource : trustStoreResource := { client := some sampleClient }

/-- A plan as the framework hands it to Create: the certificate is known, the eight
computed attributes are unknown. -/
def planOf (c : String) : trustStoreModel :=
  { ID := TString.unknown, SerialNumber := TString.unknown, Certificate := StringValue c,
    Status := TString.unknown, Issuer := TString.unknown, Signature := TString.unknown,
    UploadedOn := TString.unknown, UploadedAt := TString.unknown, ExpiresOn := TString.unknown }

/-- The response object the framework hands to Create: no state, no diagnostics. -/
def newCreateResponse : CreateResponse := { State := none, Diagnostics := [] }

/-- The response object the framework hands to Delete for a prior state. -/
def newDeleteResponse (state : trustStoreModel) : DeleteResponse :=
  { State := some state, Diagnostics := [] }

/-- An attribute diagnostic as a failed read of the plan or of the state gives. -/
def readFailure : Diagnostic :=
  { severity := Severity.Error, summary := "Value Conversion Error",
    detail := "cannot read the attribute", path := some "id" }

/-! ## Diagnostics -/

/-- Membership in an appended list of diagnostics. -/
theorem mem_Append (new : Diagnostics) (diags : Diagnostics) (d : Diagnostic) :
    d ∈ Append diags new ↔ d ∈ diags ∨ d ∈ new := by
  unfold Append
  induction new generalizing diags with
  | nil => simp
  | cons x xs ih =>
    simp only [List.foldl_cons]
    rw [ih]
    by_cases hx : x ∈ diags
    · simp only [hx, if_true, List.mem_cons]
      constructor
      · rintro (h | h)
        · exact Or.inl h
        · exact Or.inr (Or.inr h)
      · rintro (h | h | h)
        · exact Or.inl h
        · exact Or.inl (h ▸ hx)
        · exact Or.inr h
    · simp only [hx, if_false, List.mem_append, List.mem_singleton, List.mem_cons]
      tauto

/-- An error is reported exactly when some diagnostic has error severity. -/
theorem HasError_iff (diags : Diagnostics) :
    HasError diags = true ↔ ∃ d ∈ diags, d.severity = Severity.Error := by
  simp [HasError, List.any_eq_true]

/-- Appending diagnostics reports an error exactly when one of the two lists does. -/
theorem HasError_Append (diags new : Diagnostics) :
    HasError (Append diags new) = (HasError diags || HasError new) := by
  rw [Bool.eq_iff_iff, Bool.or_eq_true, HasError_iff, HasError_iff, HasError_iff]
  constructor
  · rintro ⟨d, hd, he⟩
    rcases (mem_Append new diags d).1 hd with h | h
    · exact Or.inl ⟨d, h, he⟩
    · exact Or.inr ⟨d, h, he⟩
  · rintro (⟨d, hd, he⟩ | ⟨d, hd, he⟩)
    · exact ⟨d, (mem_Append new diags d).2 (Or.inl hd), he⟩
    · exact ⟨d, (mem_Append new diags d).2 (Or.inr hd), he⟩

/-- The diagnostic handed to AddError is contained afterwards. -/
theorem mem_AddError (diags : Diagnostics) (summary detail : String) :
    NewErrorDiagnostic summary detail ∈ AddError diags summary detail := by
  unfold AddError
  exact (mem_Append _ _ _).2 (Or.inr (List.mem_singleton.2 rfl))

/-- After AddError the diagnostics report an error. -/
theorem HasError_AddError (diags : Diagnostics) (summary detail : String) :
    HasError (AddError diags summary detail) = true := by
  unfold AddError
  rw [HasError_Append]
  simp [HasError, NewErrorDiagnostic]

/-! ## Delete -/

/-- C4: status-code boundary of Delete.  For every prior state read without error and
every response whose body is read successfully, Delete returns, and it returns with
no error diagnostic if and only if the status is 200; for every other status the
diagnostics contain the error "Not deleted" whose detail is the body text, verbatim.
Delete itself leaves the state of the response object as it was. -/
theorem Delete_status_boundary (rt : Runtime) (client : TrustStoreClient) (req : DeleteRequest)
    (resp : DeleteResponse) (response : Response) (body : String)
    (hresp : HasError resp.Diagnostics = false)
    (hstate : HasError req.State.2 = false)
    (hurl : rt.urlParse (client.Url ++ "/" ++ req.State.1.ID.ValueString) = true)
    (hDo : rt.Do (deleteRequestOf client req.State.1.ID.ValueString) = (some response, none))
    (hbody : response.Body = Except.ok body) :
    (Delete rt { client := some client } req resp).ending = Ending.returned ∧
    (HasError (Delete rt { client := some client } req resp).resp.Diagnostics = false ↔
      response.StatusCode = 200) ∧
    (response.StatusCode ≠ 200 →
      NewErrorDiagnostic "Not deleted" body ∈
        (Delete rt { client := some client } req resp).resp.Diagnostics) ∧
    (Delete rt { client := some client } req resp).resp.State = resp.State := by
  unfold deleteRequestOf at hDo
  by_cases hs : response.StatusCode = 200
  · simp [Delete, NewRequest, Request.HeaderAdd, hurl, hDo, hbody, hs, HasError_Append, hresp, hstate]
  · simp [Delete, NewRequest, Request.HeaderAdd, hurl, hDo, hbody, hs, HasError_AddError, mem_AddError]

/-- Witness for C4: a 404 answer with the body "no such certificate". -/
theorem Delete_status_boundary_witness :
    (Delete (answering 404 (Except.ok "no such certificate")) sampleResource
        { State := (recordOf sampleRecord, []) } (newDeleteResponse (recordOf sampleRecord))).ending
      = Ending.returned ∧
    (HasError (Delete (answering 404 (Except.ok "no such certificate")) sampleResource
        { State := (recordOf sampleRecord, []) }
        (newDeleteResponse (recordOf sampleRecord))).resp.Diagnostics = false ↔
      (404 : Int) = 200) ∧
    ((404 : Int) ≠ 200 →
      NewErrorDiagnostic "Not deleted" "no such certificate" ∈
        (Delete (answering 404 (Except.ok "no such certificate")) sampleResource
          { State := (recordOf sampleRecord, []) }
          (newDeleteResponse (recordOf sampleRecord))).resp.Diagnostics) ∧
    (Delete (answering 404 (Except.ok "no such certificate")) sampleResource
        { State := (recordOf sampleRecord, []) }
        (newDeleteResponse (recordOf sampleRecord))).resp.State = some (recordOf sampleRecord) :=
  Delete_status_boundary (answering 404 (Except.ok "no such certificate")) sampleClient
    { State := (recordOf sampleRecord, []) } (newDeleteResponse (recordOf sampleRecord))
    { StatusCode := 404, Body := Except.ok "no such certificate" } "no such certificate"
    rfl rfl rfl rfl rfl

/-- The request of Delete once http.NewRequest has accepted the target. -/
theorem Delete_requests_accepted (rt : Runtime) (client : TrustStoreClient)
    (req : DeleteRequest) (resp : DeleteResponse)
    (hurl : rt.urlParse (client.Url ++ "/" ++ req.State.1.ID.ValueString) = true) :
    (Delete rt { client := some client } req resp).requests
      = [deleteRequestOf client req.State.1.ID.ValueString] := by
  simp only [Delete, NewRequest, hurl, if_true, Request.HeaderAdd, deleteRequestOf,
    List.nil_append]
  split
  · rfl
  · split <;> rfl

/-- Delete issues nothing when http.NewRequest rejects the target. -/
theorem Delete_requests_rejected (rt : Runtime) (client : TrustStoreClient)
    (req : DeleteRequest) (resp : DeleteResponse)
    (hurl : ¬ rt.urlParse (client.Url ++ "/" ++ req.State.1.ID.ValueString) = true) :
    (Delete rt { client := some client } req resp).requests = [] := by
  simp [Delete, NewRequest, hurl]

/-- C5: identifier addressing of Delete.  For every client (url, token) and every prior
state record, every request Delete passes to the HTTP client is the request with
method DELETE, target url followed by "/" followed by the id of the state record, no
body and the header Authorization with value "Bearer " followed by the token; Delete
issues at most one request, and exactly this one whenever the target is one that
http.NewRequest accepts. -/
theorem Delete_request (rt : Runtime) (client : TrustStoreClient) (req : DeleteRequest)
    (resp : DeleteResponse) :
    (∀ q ∈ (Delete rt { client := some client } req resp).requests,
      q = deleteRequestOf client req.State.1.ID.ValueString) ∧
    (Delete rt { client := some client } req resp).requests.length ≤ 1 ∧
    (rt.urlParse (client.Url ++ "/" ++ req.State.1.ID.ValueString) = true →
      (Delete rt { client := some client } req resp).requests
        = [deleteRequestOf client req.State.1.ID.ValueString]) := by
  by_cases hurl : rt.urlParse (client.Url ++ "/" ++ req.State.1.ID.ValueString) = true
  · rw [Delete_requests_accepted rt client req resp hurl]
    simp
  · rw [Delete_requests_rejected rt client req resp hurl]
    simp [hurl]

/-- Witness for C5: the state record with id abc123 is deleted at the target ending in
/abc123. -/
theorem Delete_request_witness :
    (Delete (answering 200 (Except.ok "")) sampleResource
        { State := (recordOf sampleRecord, []) } (newDeleteResponse (recordOf sampleRecord))).requests
      = [{ Method := "DELETE", URL := "https://truststore.example/api/certificates/abc123",
           Body := none, Header := [("Authorization", "Bearer s3cr3t")] }] :=
  (Delete_request (answering 200 (Except.ok "")) sampleClient
    { State := (recordOf sampleRecord, []) } (newDeleteResponse (recordOf sampleRecord))).2.2 rfl

/-! ## Create -/

/-- The requests of a run of Create: none, or the one request of the specification. -/
theorem Create_requests_cases (rt : Runtime) (client : TrustStoreClient) (req : CreateRequest)
    (resp : CreateResponse) :
    (Create rt { client := some client } req resp).requests = [] ∨
    (Create rt { client := some client } req resp).requests
      = [createRequestOf client req.Plan.1.Certificate.ValueString] := by
  by_cases herr : HasError (Append resp.Diagnostics req.Plan.2) = true
  · left
    simp [Create, herr]
  · by_cases hurl : rt.urlParse client.Url = true
    · right
      simp only [Create, herr, NewRequest, hurl, if_true, Bool.false_eq_true, if_false, Request.HeaderAdd, createRequestOf,
        Marshal, List.nil_append, List.map_cons, List.map_nil]
      repeat' split
      all_goals rfl
    · left
      simp [Create, herr, NewRequest, hurl]

/-- C6: outbound request of Create.  For every client (url, token) and every plan read
without error, every request Create passes to the HTTP client is the request with
method POST, target exactly url, the body the JSON object with the one key
"certificate" mapped to the certificate string of the plan, and the header
Authorization with value "Bearer " followed by the token; Create issues at most one
request, and exactly this one whenever url is a target http.NewRequest accepts. -/
theorem Create_request (rt : Runtime) (client : TrustStoreClient) (req : CreateRequest)
    (resp : CreateResponse)
    (hresp : HasError resp.Diagnostics = false)
    (hplan : HasError req.Plan.2 = false) :
    (∀ q ∈ (Create rt { client := some client } req resp).requests,
      q = createRequestOf client req.Plan.1.Certificate.ValueString) ∧
    (Create rt { client := some client } req resp).requests.length ≤ 1 ∧
    (rt.urlParse client.Url = true →
      (Create rt { client := some client } req resp).requests
        = [createRequestOf client req.Plan.1.Certificate.ValueString]) := by
  refine ⟨?_, ?_, ?_⟩
  · rcases Create_requests_cases rt client req resp with h | h <;> rw [h] <;> simp
  · rcases Create_requests_cases rt client req resp with h | h <;> rw [h] <;> simp
  · intro hurl
    have herr : ¬ HasError (Append resp.Diagnostics req.Plan.2) = true := by
      simp [HasError_Append, hresp, hplan]
    simp only [Create, herr, NewRequest, hurl, if_true, Bool.false_eq_true, if_false, Request.HeaderAdd, createRequestOf,
      Marshal, List.nil_append, List.map_cons, List.map_nil]
    repeat' split
    all_goals rfl

/-- Witness for C6: the plan with certificate CERTX is posted to the configured url. -/
theorem Create_request_witness :
    (Create (answering 201 (Except.ok sampleBody)) sampleResource
        { Plan := (planOf "CERTX", []) } newCreateResponse).requests
      = [{ Method := "POST", URL := "https://truststore.example/api/certificates",
           Body := some (JSON.object [("certificate", JSON.string "CERTX")]),
           Header := [("Authorization", "Bearer s3cr3t")] }] :=
  (Create_request (answering 201 (Except.ok sampleBody)) sampleClient
    { Plan := (planOf "CERTX", []) } newCreateResponse rfl rfl).2.2 rfl

/-- The key "result" selects the untagged field Result. -/
theorem keyMatches_result : keyMatches "result" "Result" = true := by decide

/-- The key "id" selects the field ID. -/
theorem decodeResultMember_id (r : ResultFields) (v : JSON) :
    decodeResultMember r "id" v = { r with ID := decodeString r.ID v } := by
  simp [decodeResultMember,
    (show keyMatches "id" "id" = true by decide)]

/-- The key "serial_number" selects the field SerialNumber. -/
theorem decodeResultMember_serial_number (r : ResultFields) (v : JSON) :
    decodeResultMember r "serial_number" v = { r with SerialNumber := decodeString r.SerialNumber v } := by
  simp [decodeResultMember,
    (show keyMatches "serial_number" "id" = false by decide),
    (show keyMatches "serial_number" "serial_number" = true by decide)]

/-- The key "certificate" selects the field Certificate. -/
theorem decodeResultMember_certificate (r : ResultFields) (v : JSON) :
    decodeResultMember r "certificate" v = { r with Certificate := decodeString r.Certificate v } := by
  simp [decodeResultMember,
    (show keyMatches "certificate" "id" = false by decide),
    (show keyMatches "certificate" "serial_number" = false by decide),
    (show keyMatches "certificate" "certificate" = true by decide)]

/-- The key "status" selects the field Status. -/
theorem decodeResultMember_status (r : ResultFields) (v : JSON) :
    decodeResultMember r "status" v = { r with Status := decodeString r.Status v } := by
  simp [decodeResultMember,
    (show keyMatches "status" "id" = false by decide),
    (show keyMatches "status" "serial_number" = false by decide),
    (show keyMatches "status" "certificate" = false by decide),
    (show keyMatches "status" "status" = true by decide)]

/-- The key "issuer" selects the field Issuer. -/
theorem decodeResultMember_issuer (r : ResultFields) (v : JSON) :
    decodeResultMember r "issuer" v = { r with Issuer := decodeString r.Issuer v } := by
  simp [decodeResultMember,
    (show keyMatches "issuer" "id" = false by decide),
    (show keyMatches "issuer" "serial_number" = false by decide),
    (show keyMatches "issuer" "certificate" = false by decide),
    (show keyMatches "issuer" "status" = false by decide),
    (show keyMatches "issuer" "issuer" = true by decide)]

/-- The key "signature" selects the field Signature. -/
theorem decodeResultMember_signature (r : ResultFields) (v : JSON) :
    decodeResultMember r "signature" v = { r with Signature := decodeString r.Signature v } := by
  simp [decodeResultMember,
    (show keyMatches "signature" "id" = false by decide),
    (show keyMatches "signature" "serial_number" = false by decide),
    (show keyMatches "signature" "certificate" = false by decide),
    (show keyMatches "signature" "status" = false by decide),
    (show keyMatches "signature" "issuer" = false by decide),
    (show keyMatches "signature" "signature" = true by decide)]

/-- The key "uploaded_on" selects the field UploadedOn. -/
theorem decodeResultMember_uploaded_on (r : ResultFields) (v : JSON) :
    decodeResultMember r "uploaded_on" v = { r with UploadedOn := decodeString r.UploadedOn v } := by
  simp [decodeResultMember,
    (show keyMatches "uploaded_on" "id" = false by decide),
    (show keyMatches "uploaded_on" "serial_number" = false by decide),
    (show keyMatches "uploaded_on" "certificate" = false by decide),
    (show keyMatches "uploaded_on" "status" = false by decide),
    (show keyMatches "uploaded_on" "issuer" = false by decide),
    (show keyMatches "uploaded_on" "signature" = false by decide),
    (show keyMatches "uploaded_on" "uploaded_on" = true by decide)]

/-- The key "uploaded_at" selects the field UploadedAt. -/
theorem decodeResultMember_uploaded_at (r : ResultFields) (v : JSON) :
    decodeResultMember r "uploaded_at" v = { r with UploadedAt := decodeString r.UploadedAt v } := by
  simp [decodeResultMember,
    (show keyMatches "uploaded_at" "id" = false by decide),
    (show keyMatches "uploaded_at" "serial_number" = false by decide),
    (show keyMatches "uploaded_at" "certificate" = false by decide),
    (show keyMatches "uploaded_at" "status" = false by decide),
    (show keyMatches "uploaded_at" "issuer" = false by decide),
    (show keyMatches "uploaded_at" "signature" = false by decide),
    (show keyMatches "uploaded_at" "uploaded_on" = false by decide),
    (show keyMatches "uploaded_at" "uploaded_at" = true by decide)]

/-- The key "expires_on" selects the field ExpiresOn. -/
theorem decodeResultMember_expires_on (r : ResultFields) (v : JSON) :
    decodeResultMember r "expires_on" v = { r with ExpiresOn := decodeString r.ExpiresOn v } := by
  simp [decodeResultMember,
    (show keyMatches "expires_on" "id" = false by decide),
    (show keyMatches "expires_on" "serial_number" = false by decide),
    (show keyMatches "expires_on" "certificate" = false by decide),
    (show keyMatches "expires_on" "status" = false by decide),
    (show keyMatches "expires_on" "issuer" = false by decide),
    (show keyMatches "expires_on" "signature" = false by decide),
    (show keyMatches "expires_on" "uploaded_on" = false by decide),
    (show keyMatches "expires_on" "uploaded_at" = false by decide),
    (show keyMatches "expires_on" "expires_on" = true by decide)]

/-- Decoding the document of a record R into the zero value gives R. -/
theorem decodeJsonModel_resultDocument (R : ResultFields) :
    decodeJsonModel zeroJsonModel (resultDocument R) = { Result := R } := by
  simp only [decodeJsonModel, resultDocument, List.foldl_cons, List.foldl_nil, keyMatches_result,
    if_true]
  simp only [decodeResult, List.foldl_cons, List.foldl_nil]
  rw [decodeResultMember_id, decodeResultMember_serial_number, decodeResultMember_certificate, decodeResultMember_status, decodeResultMember_issuer, decodeResultMember_signature, decodeResultMember_uploaded_on, decodeResultMember_uploaded_at, decodeResultMember_expires_on]
  simp only [decodeString]

/-- Unmarshal of a body that scans as the document of R leaves the pointer at R. -/
theorem Unmarshal_resultDocument (scan : String → Option JSON) (body : String)
    (R : ResultFields) (hdoc : scan body = some (resultDocument R)) :
    Unmarshal scan body (some zeroJsonModel) = some { Result := R } := by
  have h := decodeJsonModel_resultDocument R
  unfold Unmarshal
  rw [hdoc]
  simp only [resultDocument, Option.getD_some] at h ⊢
  rw [h]

/-- C2, as amended: round trip of Create.  When the plan is read without error and the
remote service answers 201 with a body that is the document of a record R, and the
framework stores the record, Create returns without error diagnostic and the record
it sets has the eight attributes id, serial_number, status, issuer, signature,
uploaded_on, uploaded_at and expires_on equal to those of R and the certificate of
the plan; the certificate of R is not copied.  The record is exactly R when the
certificate of R equals the certificate of the plan. -/
theorem Create_round_trip (rt : Runtime) (client : TrustStoreClient) (req : CreateRequest)
    (resp : CreateResponse) (response : Response) (body : String) (R : ResultFields)
    (hresp : HasError resp.Diagnostics = false)
    (hplan : HasError req.Plan.2 = false)
    (hurl : rt.urlParse client.Url = true)
    (hDo : rt.Do (createRequestOf client req.Plan.1.Certificate.ValueString)
      = (some response, none))
    (hstatus : response.StatusCode = 201)
    (hbody : response.Body = Except.ok body)
    (hdoc : rt.scan body = some (resultDocument R))
    (hset : HasError (rt.StateSet (createdRecord req.Plan.1 R)) = false) :
    (Create rt { client := some client } req resp).ending = Ending.returned ∧
    HasError (Create rt { client := some client } req resp).resp.Diagnostics = false ∧
    (Create rt { client := some client } req resp).resp.State
      = some (createdRecord req.Plan.1 R) ∧
    (createdRecord req.Plan.1 R).Certificate = req.Plan.1.Certificate ∧
    (req.Plan.1.Certificate = StringValue R.Certificate →
      (Create rt { client := some client } req resp).resp.State = some (recordOf R)) := by
  have herr : ¬ HasError (Append resp.Diagnostics req.Plan.2) = true := by
    simp [HasError_Append, hresp, hplan]
  have hun := Unmarshal_resultDocument rt.scan body R hdoc
  unfold createRequestOf at hDo
  unfold createdRecord at hset
  have hrun : Create rt { client := some client } req resp
      = { requests := [createRequestOf client req.Plan.1.Certificate.ValueString],
          resp := { State := some (createdRecord req.Plan.1 R),
                    Diagnostics := Append (Append resp.Diagnostics req.Plan.2)
                      (rt.StateSet (createdRecord req.Plan.1 R)) },
          ending := Ending.returned } := by
    simp [Create, herr, NewRequest, hurl, Request.HeaderAdd, Marshal, hDo, hbody, hstatus,
      hun, hset, createdRecord, createRequestOf]
  rw [hrun]
  refine ⟨rfl, ?_, rfl, rfl, ?_⟩
  · simp [HasError_Append, hresp, hplan, hset, createdRecord]
  · intro hc
    simp [createdRecord, recordOf, hc]

set_option maxRecDepth 100000 in
/-- Witness for C2: the scenario of the specification, certificate CERTX answered with the
record abc123. -/
theorem Create_round_trip_witness :
    (Create (answering 201 (Except.ok sampleBody)) sampleResource
        { Plan := (planOf "CERTX", []) } newCreateResponse).resp.State
      = some (recordOf sampleRecord) :=
  (Create_round_trip (answering 201 (Except.ok sampleBody)) sampleClient
    { Plan := (planOf "CERTX", []) } newCreateResponse
    { StatusCode := 201, Body := Except.ok sampleBody } sampleBody sampleRecord
    rfl rfl rfl rfl rfl rfl (by simp [answering, sampleScan, sampleBody]) rfl).2.2.2.2 rfl

set_option maxRecDepth 100000 in
/-- Counterexample to C2 as stated: the plan holds the certificate CERTY, the remote
service answers 201 with the document of a record R whose certificate is CERTX; the
record Create sets keeps CERTY, so it is not R. -/
theorem Create_state_is_not_R :
    sampleScan sampleBody = some (resultDocument sampleRecord) ∧
    (Create (answering 201 (Except.ok sampleBody)) sampleResource
        { Plan := (planOf "CERTY", []) } newCreateResponse).ending = Ending.returned ∧
    (Create (answering 201 (Except.ok sampleBody)) sampleResource
        { Plan := (planOf "CERTY", []) } newCreateResponse).resp.State
      ≠ some (recordOf sampleRecord) ∧
    (Create (answering 201 (Except.ok sampleBody)) sampleResource
        { Plan := (planOf "CERTY", []) } newCreateResponse).resp.State
      = some { recordOf sampleRecord with Certificate := StringValue "CERTY" } :=
  ⟨by simp [sampleScan, sampleBody], by decide, by decide, by decide⟩

/-- C1, at the input where it fails: the remote service answers 201 and the body, read
successfully, is the JSON literal null.  Create issues its request and then panics on
the nil pointer the decoder left; it does not return, and no state record is set. -/
theorem Create_created_null_body :
    (Create (answering 201 (Except.ok "null")) sampleResource
        { Plan := (planOf "CERTX", []) } newCreateResponse).ending = Ending.nilDereference ∧
    (Create (answering 201 (Except.ok "null")) sampleResource
        { Plan := (planOf "CERTX", []) } newCreateResponse).resp.State = none ∧
    (Create (answering 201 (Except.ok "null")) sampleResource
        { Plan := (planOf "CERTX", []) } newCreateResponse).requests.length = 1 := by
  decide

/-- The status-code boundary of Create away from the literal null: for every plan read
without error and every response whose body is read successfully, a status other than
201 makes Create return with the error "Not created" carrying the body text and the
state untouched; status 201 with a body that is not the JSON literal null, stored by
the framework, makes Create return without error and with a state record set. -/
theorem Create_status_boundary (rt : Runtime) (client : TrustStoreClient) (req : CreateRequest)
    (resp : CreateResponse) (response : Response) (body : String)
    (hresp : HasError resp.Diagnostics = false)
    (hplan : HasError req.Plan.2 = false)
    (hurl : rt.urlParse client.Url = true)
    (hDo : rt.Do (createRequestOf client req.Plan.1.Certificate.ValueString)
      = (some response, none))
    (hbody : response.Body = Except.ok body) :
    (response.StatusCode ≠ 201 →
      (Create rt { client := some client } req resp).ending = Ending.returned ∧
      HasError (Create rt { client := some client } req resp).resp.Diagnostics = true ∧
      NewErrorDiagnostic "Not created" body ∈
        (Create rt { client := some client } req resp).resp.Diagnostics ∧
      (Create rt { client := some client } req resp).resp.State = resp.State) ∧
    (response.StatusCode = 201 → rt.scan body ≠ some JSON.null →
      (∀ m, HasError (rt.StateSet m) = false) →
      (Create rt { client := some client } req resp).ending = Ending.returned ∧
      HasError (Create rt { client := some client } req resp).resp.Diagnostics = false ∧
      (Create rt { client := some client } req resp).resp.State.isSome = true) := by
  have herr : ¬ HasError (Append resp.Diagnostics req.Plan.2) = true := by
    simp [HasError_Append, hresp, hplan]
  have herr2 : HasError (Append resp.Diagnostics req.Plan.2) = false := by
    simp [HasError_Append, hresp, hplan]
  unfold createRequestOf at hDo
  constructor
  · intro hs
    simp [Create, herr, NewRequest, hurl, Request.HeaderAdd, Marshal, hDo, hbody, hs,
      HasError_AddError, mem_AddError]
  · intro hs hnull hset
    have hsome : ∃ m, Unmarshal rt.scan body (some zeroJsonModel) = some m := by
      unfold Unmarshal
      cases hsc : rt.scan body with
      | none => exact ⟨_, rfl⟩
      | some doc =>
        cases doc with
        | null => exact absurd hsc hnull
        | _ => exact ⟨_, rfl⟩
    obtain ⟨m, hm⟩ := hsome
    simp [Create, herr, herr2, NewRequest, hurl, Request.HeaderAdd, Marshal, hDo, hbody, hs,
      hm, hset, HasError_Append]

/-- C7, at the inputs where it fails: the remote service answers 201 and the body, read
successfully, scans as the JSON literal null, a body that is JSON and has none of the
expected fields.  Create does not report success: the decoder sets the pointer
jsonModel to nil, the next statement dereferences it and the call panics, with no
state record set and no diagnostic added. -/
theorem Create_null_document_panics (rt : Runtime) (client : TrustStoreClient)
    (req : CreateRequest) (resp : CreateResponse) (response : Response) (body : String)
    (hresp : HasError resp.Diagnostics = false)
    (hplan : HasError req.Plan.2 = false)
    (hurl : rt.urlParse client.Url = true)
    (hDo : rt.Do (createRequestOf client req.Plan.1.Certificate.ValueString)
      = (some response, none))
    (hstatus : response.StatusCode = 201)
    (hbody : response.Body = Except.ok body)
    (hdoc : rt.scan body = some JSON.null) :
    (Create rt { client := some client } req resp).ending = Ending.nilDereference ∧
    (Create rt { client := some client } req resp).resp.State = resp.State ∧
    (Create rt { client := some client } req resp).resp.Diagnostics
      = Append resp.Diagnostics req.Plan.2 := by
  have herr : ¬ HasError (Append resp.Diagnostics req.Plan.2) = true := by
    simp [HasError_Append, hresp, hplan]
  unfold createRequestOf at hDo
  simp [Create, herr, NewRequest, hurl, Request.HeaderAdd, Marshal, hDo, hbody, hstatus,
    Unmarshal, hdoc]

/-- Witness for C7: status 201 with the body null. -/
theorem Create_null_document_panics_witness :
    (Create (answering 201 (Except.ok "null")) sampleResource
        { Plan := (planOf "CERTZ", []) } newCreateResponse).ending = Ending.nilDereference :=
  (Create_null_document_panics (answering 201 (Except.ok "null")) sampleClient
    { Plan := (planOf "CERTZ", []) } newCreateResponse
    { StatusCode := 201, Body := Except.ok "null" } "null"
    rfl rfl rfl rfl rfl rfl (by simp [answering, sampleScan])).1

/-- Lenient decoding of Create away from the literal null: for a 201 answer whose body
is not JSON at all, Create returns without error and sets the record with the
certificate of the plan and the eight computed attributes empty; for a 201 answer
whose body scans as a document other than null, it sets the record built from
whatever the decoder populated. -/
theorem Create_lenient_decoding (rt : Runtime) (client : TrustStoreClient)
    (req : CreateRequest) (resp : CreateResponse) (response : Response) (body : String)
    (hresp : HasError resp.Diagnostics = false)
    (hplan : HasError req.Plan.2 = false)
    (hurl : rt.urlParse client.Url = true)
    (hDo : rt.Do (createRequestOf client req.Plan.1.Certificate.ValueString)
      = (some response, none))
    (hstatus : response.StatusCode = 201)
    (hbody : response.Body = Except.ok body)
    (hset : ∀ m, HasError (rt.StateSet m) = false) :
    (rt.scan body = none →
      (Create rt { client := some client } req resp).ending = Ending.returned ∧
      HasError (Create rt { client := some client } req resp).resp.Diagnostics = false ∧
      (Create rt { client := some client } req resp).resp.State
        = some (createdRecord req.Plan.1 zeroJsonModel.Result)) ∧
    (∀ doc, rt.scan body = some doc → doc ≠ JSON.null →
      (Create rt { client := some client } req resp).ending = Ending.returned ∧
      HasError (Create rt { client := some client } req resp).resp.Diagnostics = false ∧
      (Create rt { client := some client } req resp).resp.State
        = some (createdRecord req.Plan.1 (decodeJsonModel zeroJsonModel doc).Result)) := by
  have herr : ¬ HasError (Append resp.Diagnostics req.Plan.2) = true := by
    simp [HasError_Append, hresp, hplan]
  have herr2 : HasError (Append resp.Diagnostics req.Plan.2) = false := by
    simp [HasError_Append, hresp, hplan]
  unfold createRequestOf at hDo
  constructor
  · intro hnone
    have hm : Unmarshal rt.scan body (some zeroJsonModel) = some zeroJsonModel := by
      simp [Unmarshal, hnone]
    simp [Create, herr, herr2, NewRequest, hurl, Request.HeaderAdd, Marshal, hDo, hbody,
      hstatus, hm, hset, HasError_Append, createdRecord]
  · intro doc hdoc hne
    have hm : Unmarshal rt.scan body (some zeroJsonModel)
        = some (decodeJsonModel zeroJsonModel doc) := by
      unfold Unmarshal
      rw [hdoc]
      cases doc with
      | null => exact absurd rfl hne
      | _ => rfl
    simp [Create, herr, herr2, NewRequest, hurl, Request.HeaderAdd, Marshal, hDo, hbody,
      hstatus, hm, hset, HasError_Append, createdRecord]

/-! ## Failures of the exchange -/

/-- C3, at the inputs where it fails: the HTTP exchange fails with an error e and no
response.  Create and Delete each add the error diagnostic carrying the text of e and
leave the state as it was, but neither returns: with no return after the diagnostic,
the deferred close evaluates the body of the nil response and the call panics. -/
theorem transport_failure_panics (rt : Runtime) (client : TrustStoreClient)
    (creq : CreateRequest) (cresp : CreateResponse) (dreq : DeleteRequest)
    (dresp : DeleteResponse) (e : String)
    (hcresp : HasError cresp.Diagnostics = false)
    (hplan : HasError creq.Plan.2 = false)
    (hcurl : rt.urlParse client.Url = true)
    (hdurl : rt.urlParse (client.Url ++ "/" ++ dreq.State.1.ID.ValueString) = true)
    (hcDo : rt.Do (createRequestOf client creq.Plan.1.Certificate.ValueString)
      = (none, some e))
    (hdDo : rt.Do (deleteRequestOf client dreq.State.1.ID.ValueString) = (none, some e)) :
    ((Create rt { client := some client } creq cresp).ending = Ending.nilDereference ∧
      NewErrorDiagnostic "Cannot send post request" e ∈
        (Create rt { client := some client } creq cresp).resp.Diagnostics ∧
      (Create rt { client := some client } creq cresp).resp.State = cresp.State) ∧
    ((Delete rt { client := some client } dreq dresp).ending = Ending.nilDereference ∧
      NewErrorDiagnostic "Cannot send delete request" e ∈
        (Delete rt { client := some client } dreq dresp).resp.Diagnostics ∧
      (Delete rt { client := some client } dreq dresp).resp.State = dresp.State) := by
  have herr : ¬ HasError (Append cresp.Diagnostics creq.Plan.2) = true := by
    simp [HasError_Append, hcresp, hplan]
  unfold createRequestOf at hcDo
  unfold deleteRequestOf at hdDo
  constructor
  · simp [Create, herr, NewRequest, hcurl, Request.HeaderAdd, Marshal, hcDo, mem_AddError]
  · simp [Delete, NewRequest, hdurl, Request.HeaderAdd, hdDo, mem_AddError]

/-- Witness for C3: a remote service that refuses the connection. -/
theorem transport_failure_panics_witness :
    (Create (unreachable "connection refused") sampleResource
        { Plan := (planOf "CERTX", []) } newCreateResponse).ending = Ending.nilDereference ∧
    (Delete (unreachable "connection refused") sampleResource
        { State := (recordOf sampleRecord, []) }
        (newDeleteResponse (recordOf sampleRecord))).ending = Ending.nilDereference :=
  ⟨(transport_failure_panics (unreachable "connection refused") sampleClient
      { Plan := (planOf "CERTX", []) } newCreateResponse
      { State := (recordOf sampleRecord, []) } (newDeleteResponse (recordOf sampleRecord))
      "connection refused" rfl rfl rfl rfl rfl rfl).1.1,
   (transport_failure_panics (unreachable "connection refused") sampleClient
      { Plan := (planOf "CERTX", []) } newCreateResponse
      { State := (recordOf sampleRecord, []) } (newDeleteResponse (recordOf sampleRecord))
      "connection refused" rfl rfl rfl rfl rfl rfl).2.1⟩

/-- C9: an unreadable body is process-fatal, for Create and for Delete each on its own
premises.  Create: when the plan is read without error and the exchange returns a
response, of any status and with or without an error beside it, whose body read
fails with an error e, the call ends the process through log.Fatal with e instead of
returning; the diagnostics are those present before the read (the ones of the input
and, if the exchange also gave an error, the transport diagnostic), so none is
attached for the read failure, and no state record is set.  Delete: the same, for
every prior state, whenever its own exchange returns a response whose body read
fails. -/
theorem unreadable_body_is_fatal :
    (∀ (rt : Runtime) (client : TrustStoreClient) (creq : CreateRequest)
        (cresp : CreateResponse) (response : Response) (err : Option String) (e : String),
      HasError cresp.Diagnostics = false →
      HasError creq.Plan.2 = false →
      rt.urlParse client.Url = true →
      rt.Do (createRequestOf client creq.Plan.1.Certificate.ValueString)
        = (some response, err) →
      response.Body = Except.error e →
      (Create rt { client := some client } creq cresp).ending = Ending.fatal e ∧
      (Create rt { client := some client } creq cresp).resp.Diagnostics
        = (match err with
            | none => Append cresp.Diagnostics creq.Plan.2
            | some t => AddError (Append cresp.Diagnostics creq.Plan.2)
                "Cannot send post request" t) ∧
      (Create rt { client := some client } creq cresp).resp.State = cresp.State) ∧
    (∀ (rt : Runtime) (client : TrustStoreClient) (dreq : DeleteRequest)
        (dresp : DeleteResponse) (response : Response) (err : Option String) (e : String),
      rt.urlParse (client.Url ++ "/" ++ dreq.State.1.ID.ValueString) = true →
      rt.Do (deleteRequestOf client dreq.State.1.ID.ValueString) = (some response, err) →
      response.Body = Except.error e →
      (Delete rt { client := some client } dreq dresp).ending = Ending.fatal e ∧
      (Delete rt { client := some client } dreq dresp).resp.Diagnostics
        = (match err with
            | none => Append dresp.Diagnostics dreq.State.2
            | some t => AddError (Append dresp.Diagnostics dreq.State.2)
                "Cannot send delete request" t) ∧
      (Delete rt { client := some client } dreq dresp).resp.State = dresp.State) := by
  constructor
  · intro rt client creq cresp response err e hcresp hplan hcurl hcDo hbody
    have herr : ¬ HasError (Append cresp.Diagnostics creq.Plan.2) = true := by
      simp [HasError_Append, hcresp, hplan]
    unfold createRequestOf at hcDo
    cases err <;>
      simp [Create, herr, NewRequest, hcurl, Request.HeaderAdd, Marshal, hcDo, hbody]
  · intro rt client dreq dresp response err e hdurl hdDo hbody
    unfold deleteRequestOf at hdDo
    cases err <;> simp [Delete, NewRequest, hdurl, Request.HeaderAdd, hdDo, hbody]

/-- Witness for C9: a 201 answer to Create and, in another run, a 200 answer to Delete,
each with a body that cannot be read. -/
theorem unreadable_body_is_fatal_witness :
    ((Create (answering 201 (Except.error "unexpected EOF")) sampleResource
        { Plan := (planOf "CERTX", []) } newCreateResponse).ending
      = Ending.fatal "unexpected EOF" ∧
      (Create (answering 201 (Except.error "unexpected EOF")) sampleResource
        { Plan := (planOf "CERTX", []) } newCreateResponse).resp.Diagnostics = [] ∧
      (Create (answering 201 (Except.error "unexpected EOF")) sampleResource
        { Plan := (planOf "CERTX", []) } newCreateResponse).resp.State = none) ∧
    ((Delete (answering 200 (Except.error "connection reset")) sampleResource
        { State := (recordOf sampleRecord, []) }
        (newDeleteResponse (recordOf sampleRecord))).ending = Ending.fatal "connection reset" ∧
      (Delete (answering 200 (Except.error "connection reset")) sampleResource
        { State := (recordOf sampleRecord, []) }
        (newDeleteResponse (recordOf sampleRecord))).resp.Diagnostics = [] ∧
      (Delete (answering 200 (Except.error "connection reset")) sampleResource
        { State := (recordOf sampleRecord, []) }
        (newDeleteResponse (recordOf sampleRecord))).resp.State
        = some (recordOf sampleRecord)) :=
  ⟨unreadable_body_is_fatal.1 (answering 201 (Except.error "unexpected EOF")) sampleClient
      { Plan := (planOf "CERTX", []) } newCreateResponse
      { StatusCode := 201, Body := Except.error "unexpected EOF" } none "unexpected EOF"
      rfl rfl rfl rfl rfl,
   unreadable_body_is_fatal.2 (answering 200 (Except.error "connection reset")) sampleClient
      { State := (recordOf sampleRecord, []) } (newDeleteResponse (recordOf sampleRecord))
      { StatusCode := 200, Body := Except.error "connection reset" } none "connection reset"
      rfl rfl rfl⟩

/-! ## Unreadable input records, and the two empty methods -/

/-- C10: asymmetric handling of an unreadable input record, each half on its own premise.
Create: whenever reading the plan gives an error diagnostic, whatever the resource,
the runtime and the remote service, Create returns without issuing any request,
leaves the state as it was and has an error among its diagnostics.  Delete: when
reading the prior state gives an error diagnostic, Delete still issues its DELETE
request, addressed with the id that was decoded (the target is url followed by "/"
when that id is empty), and, once a response with a readable body is there, returns
with an error among the diagnostics whatever the status, 200 included. -/
theorem unreadable_input_asymmetry :
    (∀ (rt : Runtime) (r : trustStoreResource) (creq : CreateRequest)
        (cresp : CreateResponse),
      HasError creq.Plan.2 = true →
      (Create rt r creq cresp).requests = [] ∧
      (Create rt r creq cresp).ending = Ending.returned ∧
      (Create rt r creq cresp).resp.State = cresp.State ∧
      HasError (Create rt r creq cresp).resp.Diagnostics = true) ∧
    (∀ (rt : Runtime) (client : TrustStoreClient) (dreq : DeleteRequest)
        (dresp : DeleteResponse) (response : Response) (err : Option String) (body : String),
      HasError dreq.State.2 = true →
      rt.urlParse (client.Url ++ "/" ++ dreq.State.1.ID.ValueString) = true →
      rt.Do (deleteRequestOf client dreq.State.1.ID.ValueString) = (some response, err) →
      response.Body = Except.ok body →
      (Delete rt { client := some client } dreq dresp).requests
        = [deleteRequestOf client dreq.State.1.ID.ValueString] ∧
      (dreq.State.1.ID.ValueString = "" →
        (Delete rt { client := some client } dreq dresp).requests.map Request.URL
          = [client.Url ++ "/"]) ∧
      (Delete rt { client := some client } dreq dresp).ending = Ending.returned ∧
      HasError (Delete rt { client := some client } dreq dresp).resp.Diagnostics = true) := by
  constructor
  · intro rt r creq cresp hplan
    have herr : HasError (Append cresp.Diagnostics creq.Plan.2) = true := by
      simp [HasError_Append, hplan]
    simp [Create, herr]
  · intro rt client dreq dresp response err body hstate hdurl hDo hbody
    have hderr : HasError (Append dresp.Diagnostics dreq.State.2) = true := by
      simp [HasError_Append, hstate]
    have hreq := Delete_requests_accepted rt client dreq dresp hdurl
    unfold deleteRequestOf at hDo
    refine ⟨hreq, ?_, ?_, ?_⟩
    · intro hid
      rw [hreq, hid]
      simp [deleteRequestOf]
    · simp [Delete, NewRequest, hdurl, Request.HeaderAdd, hDo, hbody]
    · by_cases hs : response.StatusCode = 200
      · cases err <;>
          simp [Delete, NewRequest, hdurl, Request.HeaderAdd, hDo, hbody, hs, hderr,
            HasError_AddError]
      · cases err <;>
          simp [Delete, NewRequest, hdurl, Request.HeaderAdd, hDo, hbody, hs,
            HasError_AddError]

/-- Witness for C10: a plan whose read fails, handed to Create while the remote service
cannot be reached; and a prior state whose read fails, decoded with a null id, handed
to Delete on a remote service that answers 200. -/
theorem unreadable_input_asymmetry_witness :
    ((Create (unreachable "connection refused") sampleResource
        { Plan := (planOf "CERTX", [readFailure]) } newCreateResponse).requests = [] ∧
      (Create (unreachable "connection refused") sampleResource
        { Plan := (planOf "CERTX", [readFailure]) } newCreateResponse).ending
        = Ending.returned ∧
      (Create (unreachable "connection refused") sampleResource
        { Plan := (planOf "CERTX", [readFailure]) } newCreateResponse).resp.State = none) ∧
    ((Delete (answering 200 (Except.ok "")) sampleResource
        { State := ({ recordOf sampleRecord with ID := TString.null }, [readFailure]) }
        (newDeleteResponse (recordOf sampleRecord))).requests.map Request.URL
      = ["https://truststore.example/api/certificates" ++ "/"] ∧
      (Delete (answering 200 (Except.ok "")) sampleResource
        { State := ({ recordOf sampleRecord with ID := TString.null }, [readFailure]) }
        (newDeleteResponse (recordOf sampleRecord))).ending = Ending.returned ∧
      HasError (Delete (answering 200 (Except.ok "")) sampleResource
        { State := ({ recordOf sampleRecord with ID := TString.null }, [readFailure]) }
        (newDeleteResponse (recordOf sampleRecord))).resp.Diagnostics = true) :=
  ⟨⟨(unreadable_input_asymmetry.1 (unreachable "connection refused") sampleResource
        { Plan := (planOf "CERTX", [readFailure]) } newCreateResponse rfl).1,
    (unreadable_input_asymmetry.1 (unreachable "connection refused") sampleResource
        { Plan := (planOf "CERTX", [readFailure]) } newCreateResponse rfl).2.1,
    (unreadable_input_asymmetry.1 (unreachable "connection refused") sampleResource
        { Plan := (planOf "CERTX", [readFailure]) } newCreateResponse rfl).2.2.1⟩,
   ⟨(unreadable_input_asymmetry.2 (answering 200 (Except.ok "")) sampleClient
        { State := ({ recordOf sampleRecord with ID := TString.null }, [readFailure]) }
        (newDeleteResponse (recordOf sampleRecord))
        { StatusCode := 200, Body := Except.ok "" } none "" rfl rfl rfl rfl).2.1 rfl,
    (unreadable_input_asymmetry.2 (answering 200 (Except.ok "")) sampleClient
        { State := ({ recordOf sampleRecord with ID := TString.null }, [readFailure]) }
        (newDeleteResponse (recordOf sampleRecord))
        { StatusCode := 200, Body := Except.ok "" } none "" rfl rfl rfl rfl).2.2.1,
    (unreadable_input_asymmetry.2 (answering 200 (Except.ok "")) sampleClient
        { State := ({ recordOf sampleRecord with ID := TString.null }, [readFailure]) }
        (newDeleteResponse (recordOf sampleRecord))
        { StatusCode := 200, Body := Except.ok "" } none "" rfl rfl rfl rfl).2.2.2⟩⟩

/-- C8: no-op stability.  For every state record, Read issues no request and leaves the
response object, its state record and its diagnostics, exactly as it was; for every
plan and state, Update issues no request and leaves the response object exactly as it
was, whatever the certificate of the plan is, also when it differs from the stored
one.  Both return. -/
theorem Read_Update_noop (r : trustStoreResource) (rreq : ReadRequest) (rresp : ReadResponse)
    (ureq : UpdateRequest) (uresp : UpdateResponse) :
    ((Read r rreq rresp).requests = [] ∧ (Read r rreq rresp).ending = Ending.returned ∧
      (Read r rreq rresp).resp.State = rresp.State ∧
      (Read r rreq rresp).resp.Diagnostics = rresp.Diagnostics) ∧
    ((Update r ureq uresp).requests = [] ∧ (Update r ureq uresp).ending = Ending.returned ∧
      (Update r ureq uresp).resp.State = uresp.State ∧
      (Update r ureq uresp).resp.Diagnostics = uresp.Diagnostics) :=
  ⟨⟨rfl, rfl, rfl, rfl⟩, ⟨rfl, rfl, rfl, rfl⟩⟩

end TrustStore
